import Mathlib

/-!
Shallow embedding of `downloader.py` (TikTok downloader core):
URL resolution, video-id extraction, the normalization transcoder, the
TikWM provider, the direct TikTok-API fallback provider, the video
retrieval orchestrator `fetch_video` and the photo-set path `fetch_photos`.

External effects (HTTP requests, ffprobe/ffmpeg subprocess invocations)
are modelled as oracle functions supplied in an environment record; a
network call or subprocess that raises an exception is modelled as
`Except.error ()` (resp. `none`), a completed call as `Except.ok`
(resp. `some`) carrying the observable response.
-/

namespace TikTokDL

/-- A byte string, one `Nat` per byte. -/
abbrev Bytes := List Nat

/-! ## URL Resolver — `resolve_redirect`, lines 10-17 -/

/-- `resolve_redirect(url)`: performs a redirect-following GET and returns the
final effective URL `str(r.url)`; on any exception returns the input unchanged.
`net url = some final` models a completed GET whose final URL is `final`;
`net url = none` models any raised exception (timeout, DNS, reset, ...). -/
def resolve_redirect (net : String → Option String) (url : String) : String :=
  match net url with
  | some final => final
  | none => url

/-! ## Identifier extraction — `extract_video_id`, lines 19-32 -/

/-- Maximal run of leading decimal digits: the greedy capture of a
regex digit group. -/
def takeDigits : List Char → List Char
  | [] => []
  | c :: cs => if c.isDigit then c :: takeDigits cs else []

/-- `re.search` for a literal pattern followed by one-or-more digits
(the shape of the three id patterns): scan left to right; at the first
position where the literal matches and at least one digit follows,
return the maximal digit run (leftmost match, greedy capture). -/
def searchCapture (pat : List Char) : List Char → Option (List Char)
  | [] => none
  | c :: cs =>
    let here := takeDigits ((c :: cs).drop pat.length)
    if pat.isPrefixOf (c :: cs) && !here.isEmpty then some here
    else searchCapture pat cs

/-- Whether `pat` occurs as a contiguous substring of the second list. -/
def containsSub (pat : List Char) : List Char → Bool
  | [] => pat.isEmpty
  | c :: cs => pat.isPrefixOf (c :: cs) || containsSub pat cs

/-- `extract_video_id(url)`: tries the patterns `/video/(\d+)`, `/v/(\d+)`,
`video/(\d+)` in order and returns the first match's captured digits,
or `none` when no pattern matches. -/
def extract_video_id (url : String) : Option String :=
  let cs := url.toList
  match searchCapture ("/video/".toList) cs with
  | some d => some d.asString
  | none =>
    match searchCapture ("/v/".toList) cs with
    | some d => some d.asString
    | none =>
      match searchCapture ("video/".toList) cs with
      | some d => some d.asString
      | none => none

/-! ## Normalization transcoder — `get_video_dimensions` (34-52),
`convert_to_standard_mp4` (69-135) -/

/-- The portrait ffmpeg filter chain, line 88. -/
def portraitVf : String := "crop=ih*9/16:ih:(iw-ih*9/16)/2:0,scale=720:1280,setsar=1"

/-- The landscape ffmpeg filter chain, line 91. -/
def landscapeVf : String := "crop=iw:iw*9/16:0:(ih-iw*9/16)/2,scale=1280:720,setsar=1"

/-- Orientation choice, lines 76-81: when `get_video_dimensions` failed
(`(None, None)`, modelled `none`) fall back to portrait, otherwise
portrait iff `height >= width`. -/
def isPortrait : Option (Nat × Nat) → Bool
  | none => true
  | some (w, h) => decide (h ≥ w)

/-- `convert_to_standard_mp4(input_bytes)`: probes geometry with ffprobe
(`ffprobe input = some (width, height)`, `none` on any probe failure),
selects the portrait or landscape filter chain, and runs ffmpeg
(`ffmpeg vf input = some out` on exit status 0 with output bytes `out`,
`none` when the invocation raises `CalledProcessError` or any other
exception); on ffmpeg failure returns the input bytes unchanged.
The codec check after a successful run only prints. -/
def convert_to_standard_mp4 (ffprobe : Bytes → Option (Nat × Nat))
    (ffmpeg : String → Bytes → Option Bytes) (input_bytes : Bytes) : Bytes :=
  let dims := ffprobe input_bytes
  let vf := if isPortrait dims then portraitVf else landscapeVf
  match ffmpeg vf input_bytes with
  | some out => out
  | none => input_bytes

/-! ## TikWM provider — `tikwm_api_request`, lines 136-160 -/

/-- The `data` object of a TikWM JSON reply; every field may be absent. -/
structure TikwmData where
  hdplay : Option String
  play : Option String
  title : Option String
  images : Option (List String)
deriving DecidableEq

/-- A parsed TikWM JSON body: status-code field `code` and `data` object. -/
structure TikwmJson where
  code : Int
  data : TikwmData
deriving DecidableEq

/-- An HTTP response from the TikWM endpoint: status code, and the parsed
JSON body (`none` when the body fails to parse, `json.JSONDecodeError`). -/
structure TikwmResponse where
  status : Nat
  body : Option TikwmJson
deriving DecidableEq

/-- Python truthiness of an optional string: `None` and `""` are falsy. -/
def truthy : Option String → Bool
  | none => false
  | some s => s != ""

/-- Python `a or b` on optional strings: `b` unless `a` is truthy. -/
def pyOr (a b : Option String) : Option String :=
  if truthy a then a else b

/-- `tikwm_api_request(tiktok_url)`: POSTs to the TikWM API; returns the
parsed JSON when the status is 200, the body parses, and its `code`
field is 0; otherwise `None`. An exception from the POST propagates to
the caller (`Except.error`). -/
def tikwm_api_request (post : String → Except Unit TikwmResponse)
    (tiktok_url : String) : Except Unit (Option TikwmJson) :=
  match post tiktok_url with
  | Except.error e => Except.error e
  | Except.ok resp =>
    if resp.status = 200 then
      match resp.body with
      | some j => if j.code = 0 then Except.ok (some j) else Except.ok none
      | none => Except.ok none
    else Except.ok none

/-! ## Video orchestrator — `fetch_video`, lines 162-221 -/

/-- The world as seen by `fetch_video`: one oracle per external call site. -/
structure VideoEnv where
  /-- The redirect-following GET inside `resolve_redirect` (line 14). -/
  resolveNet : String → Option String
  /-- The POST inside `tikwm_api_request` (line 151). -/
  tikwmPost : String → Except Unit TikwmResponse
  /-- The binary media GET of the TikWM play URL (line 184). -/
  mediaGet : String → Except Unit (Nat × Bytes)
  /-- The GET of the fallback TikTok-API URL (line 205). -/
  fallbackGet : String → Except Unit (Nat × Bytes)
  /-- The ffprobe geometry probe inside `get_video_dimensions`. -/
  ffprobe : Bytes → Option (Nat × Nat)
  /-- The ffmpeg transcode inside `convert_to_standard_mp4`. -/
  ffmpeg : String → Bytes → Option Bytes

/-- The primary TikWM attempt, lines 177-192: call the TikWM API with the
ORIGINAL url, take `hdplay or play` (Python truthiness), fetch the binary
if that URL is truthy, and on HTTP 200 return the converted bytes with a
caption naming TikWM and the quality. Any exception inside the block
(lines 191-192) is captured and yields `none`, as does every non-success
branch (no `return` reached). -/
def tikwmAttempt (env : VideoEnv) (tiktok_url : String) : Option (Bytes × String) :=
  match tikwm_api_request env.tikwmPost tiktok_url with
  | Except.error _ => none
  | Except.ok none => none
  | Except.ok (some j) =>
    match pyOr j.data.hdplay j.data.play with
    | none => none
    | some vurl =>
      if vurl = "" then none
      else
        match env.mediaGet vurl with
        | Except.error _ => none
        | Except.ok (st, content) =>
          if st = 200 then
            some (convert_to_standard_mp4 env.ffprobe env.ffmpeg content,
              "Downloaded via TikWM (" ++
                (if truthy j.data.hdplay then "HD" else "Standard") ++
                ") - " ++ j.data.title.getD "TikTok Video")
          else none

/-- The constructed fallback endpoint URL, line 196. -/
def fallback_api_url (video_id : String) : String :=
  "https://api.tiktokv.com/aweme/v1/play/?video_id=" ++ video_id ++
    "&vr_type=0&is_play_url=1&source=PackSourceEnum_PUBLISH&media_id=" ++ video_id ++
    "&ratio=720p&line=0&file_id=" ++ video_id ++ "&quality=720p&watermark=0"

/-- The fallback direct TikTok-API attempt, lines 194-214: GET the
constructed URL; succeed only on HTTP 200 with a body longer than 1000
bytes; the caption names the TikTok API and the video id. Any exception
(lines 213-214) is captured and yields `none`. -/
def fallbackAttempt (env : VideoEnv) (video_id : String) : Option (Bytes × String) :=
  match env.fallbackGet (fallback_api_url video_id) with
  | Except.error _ => none
  | Except.ok (st, content) =>
    if st = 200 ∧ content.length > 1000 then
      some (convert_to_standard_mp4 env.ffprobe env.ffmpeg content,
        "Downloaded via TikTok API (ID: " ++ video_id ++ ")")
    else none

/-- `fetch_video(tiktok_url)`: resolve redirects, extract the video id
from the RESOLVED url (return `(None, None)` when no pattern matches,
lines 170-173), then try TikWM (with the original url, line 179) and on
failure the direct TikTok API; when both fail return `(None, None)`
(line 217). The match-group digits are never empty so `if not video_id`
is exactly the `None` case. -/
def fetch_video (env : VideoEnv) (tiktok_url : String) :
    Option Bytes × Option String :=
  let resolved_url := resolve_redirect env.resolveNet tiktok_url
  match extract_video_id resolved_url with
  | none => (none, none)
  | some video_id =>
    match tikwmAttempt env tiktok_url with
    | some bc => (some bc.1, some bc.2)
    | none =>
      match fallbackAttempt env video_id with
      | some bc => (some bc.1, some bc.2)
      | none => (none, none)

/-! ## Photo-set path — `fetch_photos`, lines 223-246 -/

/-- The world as seen by `fetch_photos`. -/
structure PhotoEnv where
  /-- The redirect-following GET inside `resolve_redirect`. -/
  resolveNet : String → Option String
  /-- The POST inside `tikwm_api_request` (line 230). -/
  tikwmPost : String → Except Unit TikwmResponse
  /-- The per-image GET (line 237). -/
  imgGet : String → Except Unit (Nat × Bytes)

/-- The image-download loop, lines 234-239: fetch each URL in order and
keep the bodies whose status is 200; an exception from any single GET
aborts the loop (it propagates to the handler at line 244). -/
def fetchImages (get : String → Except Unit (Nat × Bytes)) :
    List String → List Bytes → Except Unit (List Bytes)
  | [], acc => Except.ok acc
  | u :: us, acc =>
    match get u with
    | Except.error e => Except.error e
    | Except.ok (st, b) =>
      if st = 200 then fetchImages get us (acc ++ [b])
      else fetchImages get us acc

/-- `fetch_photos(tiktok_url)`: resolve redirects (result unused beyond a
print), call TikWM with the ORIGINAL url, and when the reply holds a
non-empty `images` list (`if images and isinstance(images, list)` — an
empty list is falsy) download each image; return the collected buffers
when at least one survived, else `(None, None)`. Any exception — from
the POST or from an individual image GET — reaches the outer handler
(lines 244-246) and yields `(None, None)`. -/
def fetch_photos (env : PhotoEnv) (tiktok_url : String) :
    Option (List Bytes) × Option String :=
  let _resolved_url := resolve_redirect env.resolveNet tiktok_url
  match tikwm_api_request env.tikwmPost tiktok_url with
  | Except.error _ => (none, none)
  | Except.ok none => (none, none)
  | Except.ok (some j) =>
    match j.data.images with
    | none => (none, none)
    | some [] => (none, none)
    | some (u :: us) =>
      match fetchImages env.imgGet (u :: us) [] with
      | Except.error _ => (none, none)
      | Except.ok bufs =>
        if bufs = [] then (none, none)
        else (some bufs,
          some ("Downloaded TikTok Photo Post - " ++ j.data.title.getD "TikTok Photos"))

/-! ## Concrete environments used by witnesses and counterexamples -/

/-- A TikWM reply with code 0, both play URLs, and a title. -/
def wResp : TikwmResponse := ⟨200, some ⟨0, ⟨some "hd", some "pl", some "t", none⟩⟩⟩

/-- A GET oracle that raises on every call. -/
def wPoisonGet : String → Except Unit (Nat × Bytes) := fun _ => Except.error ()

/-- Environment where TikWM succeeds end-to-end and the fallback would raise. -/
def wEnv1 : VideoEnv :=
  ⟨fun _ => none, fun _ => Except.ok wResp, fun _ => Except.ok (200, [7]),
   wPoisonGet, fun _ => none, fun _ _ => none⟩

/-- Environment where every provider call fails. -/
def wEnvFail : VideoEnv :=
  ⟨fun _ => none, fun _ => Except.error (), wPoisonGet, wPoisonGet,
   fun _ => none, fun _ _ => none⟩

/-! ## Theorems -/

/-- C8: resolution is idempotent — when the redirect-following GET lands only
on canonical URLs (every resolved target resolves to itself, the meaning of
"reachable without redirect loops"), `resolve_redirect (resolve_redirect x)`
equals `resolve_redirect x`; and a locator that is already canonical (resolves
to itself) is returned unchanged. -/
theorem resolve_redirect_idempotent (net : String → Option String)
    (hfix : ∀ u v, net u = some v → net v = some v) (x : String) :
    resolve_redirect net (resolve_redirect net x) = resolve_redirect net x ∧
    (net x = some x → resolve_redirect net x = x) := by
  constructor
  · cases hx : net x with
    | none => simp [resolve_redirect, hx]
    | some v =>
      have hv := hfix x v hx
      simp [resolve_redirect, hx, hv]
  · intro hx
    simp [resolve_redirect, hx]

/-- Witness for C8 at the constant resolver `fun _ => some "b"`. -/
theorem resolve_redirect_idempotent_witness :
    resolve_redirect (fun _ => some "b") (resolve_redirect (fun _ => some "b") "a") =
      resolve_redirect (fun _ => some "b") "a" :=
  (resolve_redirect_idempotent (fun _ => some "b") (fun _ _ h => h) "a").1

/-- C9: when the redirect-following GET raises for any reason,
`resolve_redirect` returns the original input string unchanged. -/
theorem resolve_redirect_on_error (net : String → Option String) (url : String)
    (hfail : net url = none) :
    resolve_redirect net url = url := by
  simp [resolve_redirect, hfail]

/-- Witness for C9 at an always-raising resolver. -/
theorem resolve_redirect_on_error_witness :
    resolve_redirect (fun _ => none) "x" = "x" :=
  resolve_redirect_on_error (fun _ => none) "x" rfl

/-- C3: geometry with `height >= width` selects the portrait crop/scale filter,
geometry with `width > height` selects the landscape filter, and a failed probe
(Unknown geometry) selects the portrait filter; in each case
`convert_to_standard_mp4` is the ffmpeg run with exactly that filter chain
(falling back to the input bytes when the run fails). -/
theorem convert_orientation (ffprobe : Bytes → Option (Nat × Nat))
    (ffmpeg : String → Bytes → Option Bytes) (input : Bytes) (w h : Nat) :
    (ffprobe input = some (w, h) → w ≤ h →
      convert_to_standard_mp4 ffprobe ffmpeg input =
        (match ffmpeg portraitVf input with
         | some out => out
         | none => input)) ∧
    (ffprobe input = some (w, h) → h < w →
      convert_to_standard_mp4 ffprobe ffmpeg input =
        (match ffmpeg landscapeVf input with
         | some out => out
         | none => input)) ∧
    (ffprobe input = none →
      convert_to_standard_mp4 ffprobe ffmpeg input =
        (match ffmpeg portraitVf input with
         | some out => out
         | none => input)) := by
  refine ⟨fun hp hle => ?_, fun hp hlt => ?_, fun hp => ?_⟩
  · simp [convert_to_standard_mp4, hp, isPortrait, hle]
  · simp [convert_to_standard_mp4, hp, isPortrait, Nat.not_le.mpr hlt]
  · simp [convert_to_standard_mp4, hp, isPortrait]

/-- Witness for C3 at a portrait 720x1280 probe and a succeeding transcode. -/
theorem convert_orientation_witness :
    convert_to_standard_mp4 (fun _ => some (720, 1280)) (fun _ _ => some [1]) [5] = [1] := by
  have h := (convert_orientation (fun _ => some (720, 1280))
    (fun _ _ => some [1]) [5] 720 1280).1 rfl (by decide)
  simpa using h

/-- C4: when the ffmpeg invocation fails on the input (non-zero exit status or
any other exception, modelled as `none` for every filter), the converter
returns the original input bytes byte-for-byte. -/
theorem convert_pass_through (ffprobe : Bytes → Option (Nat × Nat))
    (ffmpeg : String → Bytes → Option Bytes) (input : Bytes)
    (hfail : ∀ vf, ffmpeg vf input = none) :
    convert_to_standard_mp4 ffprobe ffmpeg input = input := by
  simp [convert_to_standard_mp4, hfail]

/-- Witness for C4 at an always-failing transcoder. -/
theorem convert_pass_through_witness :
    convert_to_standard_mp4 (fun _ => none) (fun _ _ => none) [3, 4] = [3, 4] :=
  convert_pass_through (fun _ => none) (fun _ _ => none) [3, 4] (fun _ => rfl)

/-- C7: when no identifier pattern matches the resolved URL, `fetch_video`
returns `(none, none)` whatever the provider oracles are — the whole request
short-circuits before any provider is invoked. -/
theorem fetch_video_no_id (res : String → Option String)
    (tp : String → Except Unit TikwmResponse)
    (mg fg : String → Except Unit (Nat × Bytes))
    (pr : Bytes → Option (Nat × Nat)) (ff : String → Bytes → Option Bytes)
    (url : String)
    (hid : extract_video_id (resolve_redirect res url) = none) :
    fetch_video ⟨res, tp, mg, fg, pr, ff⟩ url = (none, none) := by
  simp [fetch_video, hid]

/-- Witness for C7: a URL with no id pattern yields NotFound even though the
TikWM oracle would have answered successfully. -/
theorem fetch_video_no_id_witness :
    fetch_video ⟨fun _ => none, fun _ => Except.ok wResp, wPoisonGet, wPoisonGet,
      fun _ => none, fun _ _ => none⟩ "nolink" = (none, none) :=
  fetch_video_no_id (fun _ => none) (fun _ => Except.ok wResp) wPoisonGet wPoisonGet
    (fun _ => none) (fun _ _ => none) "nolink" (by decide)

/-- C1: when TikWM returns a success outcome (HTTP 200, code 0) with a
playable URL (`hdplay or play` truthy) and the binary fetch succeeds with
status 200, `fetch_video` returns that MediaResult immediately, and the result
is the same for every behaviour `g` of the fallback TikTok-API GET — the
fallback provider is never invoked; the provider order is TikWM first. -/
theorem fetch_video_short_circuit (env : VideoEnv)
    (g : String → Except Unit (Nat × Bytes))
    (url vid vurl : String) (j : TikwmJson) (content : Bytes)
    (hid : extract_video_id (resolve_redirect env.resolveNet url) = some vid)
    (hj : tikwm_api_request env.tikwmPost url = Except.ok (some j))
    (hurl : pyOr j.data.hdplay j.data.play = some vurl)
    (hne : vurl ≠ "")
    (hget : env.mediaGet vurl = Except.ok (200, content)) :
    fetch_video env url =
      (some (convert_to_standard_mp4 env.ffprobe env.ffmpeg content),
       some ("Downloaded via TikWM (" ++
         (if truthy j.data.hdplay then "HD" else "Standard") ++
         ") - " ++ j.data.title.getD "TikTok Video")) ∧
    fetch_video ⟨env.resolveNet, env.tikwmPost, env.mediaGet, g,
      env.ffprobe, env.ffmpeg⟩ url = fetch_video env url := by
  have hatt : tikwmAttempt env url =
      some (convert_to_standard_mp4 env.ffprobe env.ffmpeg content,
        "Downloaded via TikWM (" ++
          (if truthy j.data.hdplay then "HD" else "Standard") ++
          ") - " ++ j.data.title.getD "TikTok Video") := by
    simp [tikwmAttempt, hj, hurl, hne, hget]
  have hatt2 : tikwmAttempt ⟨env.resolveNet, env.tikwmPost, env.mediaGet, g,
      env.ffprobe, env.ffmpeg⟩ url =
      some (convert_to_standard_mp4 env.ffprobe env.ffmpeg content,
        "Downloaded via TikWM (" ++
          (if truthy j.data.hdplay then "HD" else "Standard") ++
          ") - " ++ j.data.title.getD "TikTok Video") := by
    simp [tikwmAttempt, hj, hurl, hne, hget]
  constructor
  · simp [fetch_video, hid, hatt]
  · simp [fetch_video, hid, hatt, hatt2]

/-- Witness for C1: TikWM succeeds while the fallback GET would raise, and the
TikWM result is returned. -/
theorem fetch_video_short_circuit_witness :
    fetch_video wEnv1 "a/video/9" =
      (some [7], some "Downloaded via TikWM (HD) - t") := by
  have h := fetch_video_short_circuit wEnv1 wPoisonGet "a/video/9" "9" "hd"
    ⟨0, ⟨some "hd", some "pl", some "t", none⟩⟩ [7]
    (by decide) rfl rfl (by decide) rfl
  simpa using h.1

/-- C2: with the id extracted, (i) when the TikWM attempt and the fallback
attempt both yield no result, `fetch_video` returns `(none, none)`; (ii) an
exception raised by the TikWM POST is captured, and the request still proceeds
to the fallback provider, whose outcome alone decides the result; (iii) the
result is never a partially-filled pair — either `(none, none)` or both a
payload and a caption. -/
theorem fetch_video_exhaustion (env : VideoEnv) (url vid : String)
    (hid : extract_video_id (resolve_redirect env.resolveNet url) = some vid) :
    (tikwmAttempt env url = none → fallbackAttempt env vid = none →
      fetch_video env url = (none, none)) ∧
    (env.tikwmPost url = Except.error () →
      fetch_video env url =
        (match fallbackAttempt env vid with
         | some bc => (some bc.1, some bc.2)
         | none => (none, none))) ∧
    (fetch_video env url = (none, none) ∨
      ∃ b c, fetch_video env url = (some b, some c)) := by
  refine ⟨fun h1 h2 => ?_, fun herr => ?_, ?_⟩
  · simp [fetch_video, hid, h1, h2]
  · have h1 : tikwmAttempt env url = none := by
      simp [tikwmAttempt, tikwm_api_request, herr]
    simp [fetch_video, hid, h1]
  · rcases hatt : tikwmAttempt env url with _ | bc
    · rcases hfb : fallbackAttempt env vid with _ | bc2
      · left
        simp [fetch_video, hid, hatt, hfb]
      · right
        exact ⟨bc2.1, bc2.2, by simp [fetch_video, hid, hatt, hfb]⟩
    · right
      exact ⟨bc.1, bc.2, by simp [fetch_video, hid, hatt]⟩

/-- Witness for C2: every provider call raises, and the request resolves to
`(none, none)`. -/
theorem fetch_video_exhaustion_witness :
    fetch_video wEnvFail "a/video/9" = (none, none) :=
  (fetch_video_exhaustion wEnvFail "a/video/9" "9" (by decide)).1 rfl rfl

/-- Environment where TikWM succeeds but the media GET returns a 200 response
with an empty body; the transcode fails so the empty body passes through. -/
def cEnv5 : VideoEnv :=
  ⟨fun _ => none, fun _ => Except.ok ⟨200, some ⟨0, ⟨some "hd", none, none, none⟩⟩⟩,
   fun _ => Except.ok (200, []), wPoisonGet, fun _ => none, fun _ _ => none⟩

/-- C5 counterexample: the video path checks only the HTTP status of the
binary fetch, so a 200 response carrying zero bytes of media still produces a
Success — `fetch_video` returns a caption together with an EMPTY payload,
contradicting the non-empty-payload invariant. -/
theorem success_with_empty_payload :
    cEnv5.mediaGet "hd" = Except.ok (200, []) ∧
    fetch_video cEnv5 "a/video/9" =
      (some [], some "Downloaded via TikWM (HD) - TikTok Video") := by
  exact ⟨rfl, by decide⟩

/-- C5 (amended): a TikWM reply whose `images` array is empty yields
`(none, none)` on the photo path (`if images` is false on an empty list),
never a Success with an empty sequence. (The video path, by contrast, accepts
a 200 status with an empty body, so there a Success can carry an empty
payload.) -/
theorem fetch_photos_empty_images (env : PhotoEnv) (url : String) (j : TikwmJson)
    (hj : tikwm_api_request env.tikwmPost url = Except.ok (some j))
    (him : j.data.images = some []) :
    fetch_photos env url = (none, none) := by
  simp [fetch_photos, hj, him]

/-- Photo environment whose TikWM reply carries an empty `images` array. -/
def wPhotoEnvEmpty : PhotoEnv :=
  ⟨fun _ => none, fun _ => Except.ok ⟨200, some ⟨0, ⟨none, none, none, some []⟩⟩⟩,
   wPoisonGet⟩

/-- Witness for the amended C5 at an empty `images` array. -/
theorem fetch_photos_empty_images_witness :
    fetch_photos wPhotoEnvEmpty "u" = (none, none) :=
  fetch_photos_empty_images wPhotoEnvEmpty "u" ⟨0, ⟨none, none, none, some []⟩⟩ rfl rfl

/-- Environment where TikWM raises and the fallback TikTok API serves a
1001-byte body with status 200; the transcode fails so the body passes
through. -/
def cEnv6 : VideoEnv :=
  ⟨fun _ => none, fun _ => Except.error (), wPoisonGet,
   fun _ => Except.ok (200, List.replicate 1001 0), fun _ => none, fun _ _ => none⟩

set_option maxRecDepth 20000 in
/-- C6 counterexample: a successful video retrieval through the fallback
TikTok-API provider carries the caption "Downloaded via TikTok API (ID: 7)",
which states neither "HD" nor "Standard" — the quality clause fails for the
fallback provider. -/
theorem fallback_caption_lacks_quality :
    fetch_video cEnv6 "a/video/7" =
      (some (List.replicate 1001 0), some "Downloaded via TikTok API (ID: 7)") ∧
    containsSub "HD".toList "Downloaded via TikTok API (ID: 7)".toList = false ∧
    containsSub "Standard".toList "Downloaded via TikTok API (ID: 7)".toList = false := by
  refine ⟨by decide, by decide, by decide⟩

/-- Every successful TikWM attempt carries a caption naming TikWM and the
quality obtained. -/
theorem tikwmAttempt_caption (env : VideoEnv) (url : String) (bc : Bytes × String)
    (h : tikwmAttempt env url = some bc) :
    ∃ q t, (q = "HD" ∨ q = "Standard") ∧
      bc.2 = "Downloaded via TikWM (" ++ q ++ ") - " ++ t := by
  unfold tikwmAttempt at h
  split at h
  · cases h
  · cases h
  · rename_i j heqj
    split at h
    · cases h
    · split at h
      · cases h
      · split at h
        · cases h
        · split at h
          · injection h with h
            subst h
            refine ⟨if truthy j.data.hdplay then "HD" else "Standard",
              j.data.title.getD "TikTok Video", ?_, rfl⟩
            by_cases h6 : truthy j.data.hdplay
            · left; rw [if_pos h6]
            · right; rw [if_neg h6]
          · cases h

/-- Every successful fallback attempt carries the caption naming the TikTok
API and the video id (and no quality marker). -/
theorem fallbackAttempt_caption (env : VideoEnv) (vid : String) (bc : Bytes × String)
    (h : fallbackAttempt env vid = some bc) :
    bc.2 = "Downloaded via TikTok API (ID: " ++ vid ++ ")" := by
  unfold fallbackAttempt at h
  split at h
  · cases h
  · split at h
    · injection h with h
      subst h
      rfl
    · cases h

/-- C6 (amended): every successful retrieval's caption identifies the
provider that produced it — it is either the TikWM caption, which also states
the quality ("HD" or "Standard"), or the fallback TikTok-API caption, which
states the video id but no quality. -/
theorem fetch_video_caption_forms (env : VideoEnv) (url : String)
    (b : Bytes) (c : String)
    (hsucc : fetch_video env url = (some b, some c)) :
    (∃ q t, (q = "HD" ∨ q = "Standard") ∧
      c = "Downloaded via TikWM (" ++ q ++ ") - " ++ t) ∨
    (∃ v, c = "Downloaded via TikTok API (ID: " ++ v ++ ")") := by
  rcases hid : extract_video_id (resolve_redirect env.resolveNet url) with _ | vid
  · simp [fetch_video, hid] at hsucc
  · rcases hatt : tikwmAttempt env url with _ | bc
    · rcases hfb : fallbackAttempt env vid with _ | bc2
      · simp [fetch_video, hid, hatt, hfb] at hsucc
      · right
        have hres : fetch_video env url = (some bc2.1, some bc2.2) := by
          simp [fetch_video, hid, hatt, hfb]
        rw [hsucc] at hres
        simp only [Prod.mk.injEq, Option.some.injEq] at hres
        exact ⟨vid, hres.2.trans (fallbackAttempt_caption env vid bc2 hfb)⟩
    · left
      have hres : fetch_video env url = (some bc.1, some bc.2) := by
        simp [fetch_video, hid, hatt]
      rw [hsucc] at hres
      simp only [Prod.mk.injEq, Option.some.injEq] at hres
      obtain ⟨q, t, hq, ht⟩ := tikwmAttempt_caption env url bc hatt
      exact ⟨q, t, hq, hres.2.trans ht⟩

/-- Witness for the amended C6 at the TikWM-success environment. -/
theorem fetch_video_caption_forms_witness :
    (∃ q t, (q = "HD" ∨ q = "Standard") ∧
      "Downloaded via TikWM (HD) - t" = "Downloaded via TikWM (" ++ q ++ ") - " ++ t) ∨
    (∃ v, "Downloaded via TikWM (HD) - t" =
      "Downloaded via TikTok API (ID: " ++ v ++ ")") :=
  fetch_video_caption_forms wEnv1 "a/video/9" [7]
    "Downloaded via TikWM (HD) - t" (by decide)

/-- Photo environment whose first image GET raises while the second would
return HTTP 200. -/
def cEnvP : PhotoEnv :=
  ⟨fun _ => none,
   fun _ => Except.ok ⟨200, some ⟨0, ⟨none, none, none, some ["a", "b"]⟩⟩⟩,
   fun u => if u = "b" then Except.ok (200, [1]) else Except.error ()⟩

/-- C10 counterexample: the upstream returns images ["a", "b"]; the GET of
"a" raises while the GET of "b" would succeed with status 200 — yet
`fetch_photos` returns `(none, none)` instead of the Success containing the
fetchable image: an exception in one image fetch aborts the whole request, it
is not silently omitted. -/
theorem photo_fetch_exception_aborts :
    cEnvP.imgGet "b" = Except.ok (200, [1]) ∧
    fetch_photos cEnvP "u" = (none, none) := by
  exact ⟨rfl, by decide⟩

/-- When every per-image GET completes with some status, the download loop
returns the bodies whose status is 200, in list order. -/
theorem fetchImages_ok (get : String → Except Unit (Nat × Bytes)) (is : List String)
    (hok : ∀ u ∈ is, ∃ st bdy, get u = Except.ok (st, bdy)) (acc : List Bytes) :
    fetchImages get is acc = Except.ok (acc ++ is.filterMap fun u =>
      match get u with
      | Except.ok (st, bdy) => if st = 200 then some bdy else none
      | Except.error _ => none) := by
  induction is generalizing acc with
  | nil => simp [fetchImages]
  | cons u us ih =>
    obtain ⟨st, bdy, hu⟩ := hok u (by simp)
    have hok2 : ∀ v ∈ us, ∃ st bdy, get v = Except.ok (st, bdy) :=
      fun v hv => hok v (by simp [hv])
    by_cases h2 : st = 200
    · simp [fetchImages, hu, h2, ih hok2]
    · simp [fetchImages, hu, h2, ih hok2]

/-- C10 (amended): when the upstream returns a non-empty images list and every
individual image GET completes with some HTTP status (no exception),
`fetch_photos` returns Success containing exactly the bodies whose status was
200, in the upstream order, provided at least one survives; otherwise
`(none, none)`. (An exception during any single image GET instead aborts the
whole request to `(none, none)`.) -/
theorem fetch_photos_filtering (env : PhotoEnv) (url : String) (j : TikwmJson)
    (u0 : String) (us : List String)
    (hj : tikwm_api_request env.tikwmPost url = Except.ok (some j))
    (him : j.data.images = some (u0 :: us))
    (hok : ∀ u ∈ u0 :: us, ∃ st bdy, env.imgGet u = Except.ok (st, bdy)) :
    fetch_photos env url =
      (let bufs := (u0 :: us).filterMap fun u =>
        match env.imgGet u with
        | Except.ok (st, bdy) => if st = 200 then some bdy else none
        | Except.error _ => none
      if bufs = [] then (none, none)
      else (some bufs,
        some ("Downloaded TikTok Photo Post - " ++ j.data.title.getD "TikTok Photos"))) := by
  simp only [fetch_photos, hj, him, fetchImages_ok env.imgGet (u0 :: us) hok [],
    List.nil_append]

/-- Photo environment with three images: statuses 200, 404, 200. -/
def wEnvP : PhotoEnv :=
  ⟨fun _ => none,
   fun _ => Except.ok ⟨200, some ⟨0, ⟨none, none, none, some ["a", "b", "c"]⟩⟩⟩,
   fun u => if u = "a" then Except.ok (200, [1])
     else if u = "b" then Except.ok (404, [2]) else Except.ok (200, [3])⟩

/-- Witness for the amended C10: of three images one returns 404 and is
omitted; the two 200 bodies are returned in order. -/
theorem fetch_photos_filtering_witness :
    fetch_photos wEnvP "u" =
      (some [[1], [3]], some "Downloaded TikTok Photo Post - TikTok Photos") := by
  have h := fetch_photos_filtering wEnvP "u"
    ⟨0, ⟨none, none, none, some ["a", "b", "c"]⟩⟩ "a" ["b", "c"] rfl rfl
    (by
      intro u hu
      simp only [List.mem_cons, List.not_mem_nil, or_false] at hu
      rcases hu with rfl | rfl | rfl
      · exact ⟨200, [1], rfl⟩
      · exact ⟨404, [2], rfl⟩
      · exact ⟨200, [3], rfl⟩)
  exact h.trans (by decide)

end TikTokDL
